import Mathlib

/-!
Verification development for the owlculus case-management tool
(src/owlculus/case_manager.py, client_manager.py, osint_tools.py).

The Python modules are shallowly embedded: the two SQLite tables
(`cases` in cases.db, `clients` in clients.db) become lists of records,
the on-disk case tree under the configured base path becomes an explicit
filesystem value (directory paths and file paths with contents), and each
manager method becomes a Lean function over a combined `World` state.
Methods that can raise return the state reached when the exception is
thrown, together with an `Except` outcome.  Dates and template files are
runtime inputs in Python (`datetime.now()`, `templates/*.md`), so they are
parameters of the embedded operations.
-/

deriving instance DecidableEq for Except

namespace Owlculus

/-- Byte-wise lexicographic order on character lists, used to state the
lexicographically-first property of case-number generation. -/
def lexLe : List Char → List Char → Bool
  | [], _ => true
  | _ :: _, [] => false
  | a :: as, b :: bs =>
    if a.toNat < b.toNat then true
    else if b.toNat < a.toNat then false
    else lexLe as bs

/-- Lexicographic order on strings. -/
def strLe (a b : String) : Bool := lexLe a.data b.data

/-- Left-to-right, non-overlapping replacement of every occurrence of
`pat` by `rep`, the semantics of Python `str.replace` for a non-empty
pattern.  Fuel-based recursion keeps the definition kernel-computable. -/
def replaceAllAux (pat rep : List Char) : Nat → List Char → List Char
  | 0, s => s
  | _ + 1, [] => []
  | fuel + 1, c :: rest =>
    if pat.isPrefixOf (c :: rest) then rep ++ replaceAllAux pat rep fuel ((c :: rest).drop pat.length)
    else c :: replaceAllAux pat rep fuel rest

/-- Python `s.replace(pat, rep)` (the patterns used by the sources are
never empty; an empty pattern is mapped to the identity). -/
def pyReplace (s pat rep : String) : String :=
  if pat.data.isEmpty then s else ⟨replaceAllAux pat.data rep.data s.data.length s.data⟩

/-- Python `s.strip()`: drop whitespace from both ends. -/
def pyStrip (s : String) : String :=
  ⟨((s.data.dropWhile Char.isWhitespace).reverse.dropWhile Char.isWhitespace).reverse⟩

/-- Python `s.split(".")[0]`: the characters before the first dot. -/
def stemBeforeDot (s : String) : String :=
  ⟨s.data.takeWhile (fun c => !(c == '.'))⟩

/-- Python `str(n)` for a natural number. -/
def pyStr (n : Nat) : String := toString n

/-- Python `str(n).zfill(2)`: left-pad the decimal representation with
zeros to width 2. -/
def zfill2 (n : Nat) : String :=
  let s := pyStr n
  if s.length < 2 then "0" ++ s else s

/-- A row of the `cases` table (case_manager.py, CREATE TABLE at lines
50-59).  `client_id` stores whatever value the caller passes (the GUI
passes the client name text), reflecting SQLite dynamic typing. -/
structure CaseRow where
  id : Nat
  case_number : String
  case_type : String
  client_id : String
  created_at : String
deriving Repr, DecidableEq

/-- A row of the `clients` table (client_manager.py, CREATE TABLE at
lines 126-134). -/
structure ClientRow where
  id : Nat
  name : String
  point_of_contact : String
  phone_number : String
  email : String
deriving Repr, DecidableEq

/-- The tree under the configured base path: directory paths and file
paths (as component lists relative to the base path) with file contents. -/
structure Fs where
  dirs : List (List String)
  files : List (List String × String)
deriving Repr, DecidableEq

/-- Combined persistent state: the two database tables, the case tree on
disk, and the AUTOINCREMENT counters of the two tables. -/
structure World where
  cases : List CaseRow
  clients : List ClientRow
  fs : Fs
  nextCaseId : Nat
  nextClientId : Nat
deriving Repr, DecidableEq

/-- State after `CREATE TABLE IF NOT EXISTS` on fresh database files and
an empty base directory. -/
def emptyWorld : World := ⟨[], [], ⟨[], []⟩, 1, 1⟩

/-- `path.exists()`: true if the path names a directory or a file. -/
def pathExists (fs : Fs) (p : List String) : Bool :=
  fs.dirs.contains p || fs.files.any (fun f => f.1 == p)

/-- The folders created for every case, `COMMON_FOLDERS`
(case_manager.py line 23; the `sorted(...)` call in the source evaluates
to this list). -/
def COMMON_FOLDERS : List String :=
  ["Associates", "Audio", "Documents", "Other", "Social_Media"]

/-- `SOCIAL_MEDIA_FOLDERS` (case_manager.py lines 24-27, after
`sorted`). -/
def SOCIAL_MEDIA_FOLDERS : List String :=
  ["Discord", "Facebook", "Instagram", "LinkedIn", "Reddit",
   "Signal", "Snapchat", "Telegram", "TikTok", "Twitter", "WhatsApp", "YouTube"]

/-- Columns of the `cases` table as declared by the CREATE TABLE
statement (case_manager.py lines 50-59). -/
def casesTableColumns : List String :=
  ["id", "case_number", "case_type", "client_id", "created_at"]

namespace CaseDatabaseManager

/-- `CaseDatabaseManager.case_number_exists` (case_manager.py lines
64-74): `SELECT * FROM cases WHERE case_number = ?` and test whether a
row came back. -/
def case_number_exists (cases : List CaseRow) (case_number : String) : Bool :=
  cases.any (fun r => r.case_number == case_number)

/-- `CaseDatabaseManager.add_case_number` (lines 76-90): INSERT a row
into `cases`.  Callers guarantee the UNIQUE constraint via
`case_number_exists`, so the insert is modelled as a plain append. -/
def add_case_number (w : World) (case_number case_type client created_at : String) : World :=
  { w with
    cases := w.cases ++ [⟨w.nextCaseId, case_number, case_type, client, created_at⟩],
    nextCaseId := w.nextCaseId + 1 }

/-- The candidate case number `f"{date}-{str(i).zfill(2)}"`
(case_manager.py line 102). -/
def mkCaseNumber (date : String) (i : Nat) : String :=
  date ++ "-" ++ zfill2 i

/-- The allocation loop `for i in range(1, 100)` with its `else` clause
(lines 100-107): the first `i` whose case number is unused, if any. -/
def generateCaseNumber (cases : List CaseRow) (date : String) : Option String :=
  ((List.range' 1 99).find? (fun i => !(case_number_exists cases (mkCaseNumber date i)))).map
    (mkCaseNumber date)

/-- The placeholder substitution applied to the Notes template
(case_manager.py lines 149-151). -/
def substituteNotes (content case_number case_type today : String) : String :=
  pyReplace
    (pyReplace
      (pyReplace content "**Case Number:**" ("**Case Number:** " ++ case_number))
      "**Case Type:**" ("**Case Type:** " ++ case_type))
    "**Date:**" ("**Date:** " ++ today)

/-- The `template_to_folder` mapping with default `""`
(case_manager.py lines 133-138, 142). -/
def template_to_folder (template_name : String) : String :=
  if template_name == "Notes" then ""
  else if template_name == "SOCMINT" then "Social_Media"
  else if template_name == "Associates" then "Associates"
  else ""

/-- The per-type folder list (lines 118-124): `COMMON_FOLDERS` plus, for
a Company case only, `sorted(["Domains", "Executives", "Network"])`. -/
def caseFolders (case_type : String) : List String :=
  COMMON_FOLDERS ++ (if case_type == "Company" then ["Domains", "Executives", "Network"] else [])

/-- The directories created for one case, in creation order (lines
116-130): the case folder itself, its per-type subfolders, and the
per-platform subfolders of Social_Media. -/
def caseDirs (folderName case_type : String) : List (List String) :=
  [folderName] ::
    ((caseFolders case_type).map (fun f => [folderName, f]) ++
      SOCIAL_MEDIA_FOLDERS.map (fun sm => [folderName, "Social_Media", sm]))

/-- The file written for one template `t = (file name, content)` (lines
140-158): a Notes template is substituted and written to `Notes.md` in
the case folder, any other template is copied into its mapped folder. -/
def templateOutput (folderName case_number case_type today : String)
    (t : String × String) : List String × String :=
  let template_name := stemBeforeDot t.1
  if template_name == "Notes" then
    ([folderName, "Notes.md"], substituteNotes t.2 case_number case_type today)
  else
    let target := template_to_folder template_name
    (if target == "" then [folderName, t.1] else [folderName, target, t.1], t.2)

/-- Outcome of `setup_case_folder`: the `else` clause of the allocation
loop (no free number, nothing done), a `FileExistsError` from
`case_folder_path.mkdir()` after the row was inserted, or full success
carrying the allocated case number. -/
inductive SetupOutcome where
  | noNumbers
  | mkdirFailed
  | created (case_number : String)
deriving Repr, DecidableEq

/-- `CaseDatabaseManager.setup_case_folder` (case_manager.py lines
92-160).  `date` is `datetime.now().strftime("%y%m")`, `created_at` the
full timestamp used by `add_case_number`, `today` the `%Y-%m-%d` date
substituted into the Notes template, and `templates` the `*.md` files of
the templates directory as (file name, content) pairs.  The DB insert
happens before the folder creation, so a `mkdir` failure leaves the row
inserted with no folder. -/
def setup_case_folder (w : World) (case_name : Option String)
    (case_type client date created_at today : String)
    (templates : List (String × String)) : World × SetupOutcome :=
  match generateCaseNumber w.cases date with
  | none => (w, SetupOutcome.noNumbers)
  | some case_number =>
    let w1 : World := add_case_number w case_number case_type client created_at
    let folderName := case_name.getD case_number
    if pathExists w1.fs [folderName] then (w1, SetupOutcome.mkdirFailed)
    else
      ({ w1 with
          fs := { dirs := w1.fs.dirs ++ caseDirs folderName case_type,
                  files := w1.fs.files ++
                    templates.map (templateOutput folderName case_number case_type today) } },
        SetupOutcome.created case_number)

/-- `CaseDatabaseManager.delete_case` (lines 162-177): DELETE the row,
then `shutil.rmtree` the directory named by the case number when it
exists.  (When the path exists only as a file, `rmtree` raises without
removing anything, which leaves the same state as not removing.) -/
def delete_case (w : World) (case_number : String) : World :=
  let w1 := { w with cases := w.cases.filter (fun r => !(r.case_number == case_number)) }
  if w1.fs.dirs.contains [case_number] then
    { w1 with
      fs := { dirs := w1.fs.dirs.filter (fun d => !([case_number].isPrefixOf d)),
              files := w1.fs.files.filter (fun f => !([case_number].isPrefixOf f.1)) } }
  else w1

/-- Moving the top-level entry `old` to `new_`: every path whose first
component is `old` gets first component `new_`. -/
def renameTop (old new_ : String) : List String → List String
  | [] => []
  | x :: rest => if x == old then new_ :: rest else x :: rest

/-- `CaseDatabaseManager.rename_case` (lines 179-202): raise ValueError
when the new number exists, otherwise UPDATE the row(s) and rename the
on-disk folder when it exists.  `Path.rename` onto a path that already
exists is modelled as an error (on POSIX it succeeds only onto an empty
directory; case folders are never empty). -/
def rename_case (w : World) (old_case_number new_case_number : String) :
    World × Except String Nat :=
  if case_number_exists w.cases new_case_number then
    (w, Except.error ("Case number " ++ new_case_number ++ " already exists."))
  else
    let rows_affected := (w.cases.filter (fun r => r.case_number == old_case_number)).length
    let w1 := { w with
      cases := w.cases.map (fun r =>
        if r.case_number == old_case_number then { r with case_number := new_case_number } else r) }
    if pathExists w1.fs [old_case_number] then
      if pathExists w1.fs [new_case_number] then
        (w1, Except.error "OSError: cannot rename onto an existing path")
      else
        ({ w1 with
            fs := { dirs := w1.fs.dirs.map (renameTop old_case_number new_case_number),
                    files := w1.fs.files.map (fun f =>
                      (renameTop old_case_number new_case_number f.1, f.2)) } },
          Except.ok rows_affected)
    else (w1, Except.ok rows_affected)

/-- `CaseDatabaseManager.update_client` (lines 217-226): executes
`UPDATE cases SET client = ? WHERE case_number = ?`.  The `cases` schema
has no column named `client` (the column is `client_id`), so sqlite3
raises OperationalError before touching any row; the branch that would
run had the column existed is kept for reference. -/
def update_client (w : World) (case_number new_client : String) : World × Except String Unit :=
  if casesTableColumns.contains "client" then
    ({ w with cases := w.cases.map (fun r =>
        if r.case_number == case_number then { r with client_id := new_client } else r) },
      Except.ok ())
  else (w, Except.error "no such column: client")

end CaseDatabaseManager

namespace ClientManager

/-- `ClientManager.client_exists` (client_manager.py lines 139-149). -/
def client_exists (clients : List ClientRow) (name : String) : Bool :=
  clients.any (fun c => c.name == name)

/-- `ClientManager.add_client` (lines 151-166): raise ValueError when the
name exists, otherwise INSERT the row.  (The quotes of the Python
message around the name are omitted from the embedded message text.) -/
def add_client (w : World) (name point_of_contact phone_number email : String) :
    World × Except String Unit :=
  if client_exists w.clients name then
    (w, Except.error ("A client with the name " ++ name ++ " already exists."))
  else
    ({ w with
        clients := w.clients ++ [⟨w.nextClientId, name, point_of_contact, phone_number, email⟩],
        nextClientId := w.nextClientId + 1 },
      Except.ok ())

/-- `ClientManager.update_client` (lines 187-223).  The uniqueness guard
is Python `if name and self.client_exists(name)`: it fires only for a
truthy (non-None, non-empty) name.  Every argument that `is not None`
is added to the SET clause; with no argument at all the generated SQL
`UPDATE clients SET  WHERE id = ?` is a syntax error. -/
def update_client (w : World) (client_id : Nat)
    (name point_of_contact phone_number email : Option String) : World × Except String Unit :=
  if (match name with
      | some n => !(n == "") && client_exists w.clients n
      | none => false) then
    (w, Except.error ("A client with the name " ++ name.getD "" ++ " already exists."))
  else if name.isNone && point_of_contact.isNone && phone_number.isNone && email.isNone then
    (w, Except.error "near WHERE: syntax error")
  else
    ({ w with clients := w.clients.map (fun c =>
        if c.id == client_id then
          { c with
            name := name.getD c.name,
            point_of_contact := point_of_contact.getD c.point_of_contact,
            phone_number := phone_number.getD c.phone_number,
            email := email.getD c.email }
        else c) },
      Except.ok ())

/-- `ClientManager.delete_client` (lines 257-266): `DELETE FROM clients
WHERE id = ?` on clients.db.  The statement names only the `clients`
table; `cases` lives in a different database file, and no connection
other than the schema-creating one enables foreign keys, so no cascade
or SET NULL can run. -/
def delete_client (w : World) (client_id : Nat) : World :=
  { w with clients := w.clients.filter (fun c => !(c.id == client_id)) }

end ClientManager

namespace ToolRunner

/-- `ToolRunner._execute_command` (osint_tools.py lines 61-77), with the
subprocess abstracted to the list of lines it writes and the shared
`self.cancelled` flag abstracted to its value at each per-line check
(`cancelled i` is the value observed by the check before the i-th line,
counting from `start`).  Returns the yielded (stripped) lines and
whether `process.terminate()` was called. -/
def execute_command : List String → (Nat → Bool) → Nat → List String × Bool
  | [], _, _ => ([], false)
  | line :: rest, cancelled, i =>
    if cancelled i then ([], true)
    else
      let r := execute_command rest cancelled (i + 1)
      (pyStrip line :: r.1, r.2)

end ToolRunner

/-- `case_number` uniqueness invariant of the `cases` table (UNIQUE
constraint in the schema). -/
def UniqueCaseNumbers (w : World) : Prop :=
  w.cases.Pairwise fun a b => a.case_number ≠ b.case_number

/-- The folder-mirror invariant: every case's on-disk folder under the
base path is named by its case number. -/
def FoldersMirror (w : World) : Prop :=
  ∀ r ∈ w.cases, [r.case_number] ∈ w.fs.dirs

open CaseDatabaseManager ClientManager

/-- Witness state for C1: one empty database. -/
def C1W : World :=
  (setup_case_folder emptyWorld none "Person" "" "2510" "ca" "2025-10-12" []).1

/-- Witness state for C2: one case on file. -/
def C2W : World :=
  (setup_case_folder emptyWorld none "Person" "" "2510" "ca" "2025-10-12" []).1

/-- Counterexample state for C3: a case created under the custom folder
name `Foo` instead of its case number. -/
def C3W : World :=
  (setup_case_folder emptyWorld (some "Foo") "Person" "" "2510" "ca" "2025-10-12" []).1

/-- Counterexample state for C4: the clients table holds a client whose
name is the empty string, next to a client named `A`. -/
def C4W : World :=
  { emptyWorld with
    clients := [⟨1, "", "p", "555", "e"⟩, ⟨2, "A", "q", "556", "f"⟩],
    nextClientId := 3 }

/-- Counterexample states for C5: a case whose custom folder name spells
the case number of a later case. -/
def C5W1 : World :=
  (setup_case_folder emptyWorld (some "2510-02") "Person" "" "2510" "ca" "2025-10-12" []).1

def C5W2 : World :=
  (setup_case_folder C5W1 (some "B") "Person" "" "2510" "ca" "2025-10-12" []).1

def C5W3 : World := (rename_case C5W2 "2510-02" "2510-03").1

/-- Witness state for C5: one normally created case. -/
def C5W : World :=
  (setup_case_folder emptyWorld none "Person" "" "2510" "ca" "2025-10-12" []).1

/-- Witness templates for C6. -/
def C6T : List (String × String) :=
  [("Notes.md", "# Intro\n**Case Number:**\n**Case Type:**\n**Date:**\n"),
   ("SOCMINT.md", "socmint text"), ("Associates.md", "associates text"),
   ("README.md", "readme text")]

/-- Witness state for C6: a Company case created from `C6T`. -/
def C6W : World :=
  (setup_case_folder emptyWorld none "Company" "acme" "2510" "ca" "2025-10-12" C6T).1

/-- Witness state for C8: every case number 2510-01 … 2510-99 taken. -/
def C8W : World :=
  { emptyWorld with
    cases := (List.range' 1 99).map (fun i => ⟨i, mkCaseNumber "2510" i, "Person", "", "ca"⟩),
    nextCaseId := 100 }

/-- The cancellation-flag history used by the C7 witness: set from the
second per-line check on. -/
def C7Flag (n : Nat) : Bool := Nat.ble 1 n

/- ------------------------------------------------------------------ -/
/- Helper lemmas                                                      -/
/- ------------------------------------------------------------------ -/

theorem contains_true_iff {α : Type} [BEq α] [LawfulBEq α] (l : List α) (a : α) :
    l.contains a = true ↔ a ∈ l := by
  simp [List.contains]

theorem case_number_exists_false_iff (cases : List CaseRow) (cn : String) :
    case_number_exists cases cn = false ↔ ∀ r ∈ cases, r.case_number ≠ cn := by
  simp [case_number_exists]

theorem lexLe_append_same : ∀ (p a b : List Char), lexLe (p ++ a) (p ++ b) = lexLe a b
  | [], _, _ => rfl
  | c :: p, a, b => by
    simp only [List.cons_append, lexLe, Nat.lt_irrefl, if_false]
    exact lexLe_append_same p a b

set_option maxRecDepth 4000 in
theorem zfill2_lexLe :
    ∀ i, i < 100 → ∀ j, j < 100 → i ≤ j → lexLe (zfill2 i).data (zfill2 j).data = true := by
  decide

theorem strLe_mkCaseNumber (date : String) {i j : Nat} (hi : i < 100) (hj : j < 100)
    (hij : i ≤ j) : strLe (mkCaseNumber date i) (mkCaseNumber date j) = true := by
  have e1 : (mkCaseNumber date i).data = (date.data ++ "-".data) ++ (zfill2 i).data := rfl
  have e2 : (mkCaseNumber date j).data = (date.data ++ "-".data) ++ (zfill2 j).data := rfl
  unfold strLe
  rw [e1, e2, lexLe_append_same]
  exact zfill2_lexLe i hi j hj hij

theorem find?_range'_spec :
    ∀ (n k : Nat) (p : Nat → Bool) (i : Nat),
      (List.range' k n).find? p = some i →
      p i = true ∧ k ≤ i ∧ i < k + n ∧ ∀ j, k ≤ j → j < i → p j = false := by
  intro n
  induction n with
  | zero => intro k p i h; simp [List.range'] at h
  | succ m ih =>
    intro k p i h
    rw [List.range'_succ] at h
    by_cases hk : p k = true
    · rw [List.find?_cons_of_pos _ hk] at h
      obtain rfl : k = i := by injection h
      exact ⟨hk, Nat.le_refl k, by omega, fun j h1 h2 => by omega⟩
    · rw [List.find?_cons_of_neg _ (by simpa using hk)] at h
      obtain ⟨hp, hki, hlt, hmin⟩ := ih (k + 1) p i h
      refine ⟨hp, by omega, by omega, fun j h1 h2 => ?_⟩
      by_cases hj : j = k
      · subst hj; simpa using hk
      · exact hmin j (by omega) h2

theorem generateCaseNumber_spec (cases : List CaseRow) (date cn : String)
    (h : generateCaseNumber cases date = some cn) :
    ∃ i, 1 ≤ i ∧ i ≤ 99 ∧ cn = mkCaseNumber date i ∧
      case_number_exists cases cn = false ∧
      ∀ j, 1 ≤ j → j < i → case_number_exists cases (mkCaseNumber date j) = true := by
  unfold generateCaseNumber at h
  cases hf : (List.range' 1 99).find?
      (fun i => !(case_number_exists cases (mkCaseNumber date i))) with
  | none => rw [hf] at h; simp at h
  | some i =>
    rw [hf] at h
    simp only [Option.map_some', Option.some.injEq] at h
    obtain ⟨hp, hk, hlt, hmin⟩ := find?_range'_spec 99 1 _ i hf
    refine ⟨i, hk, by omega, h.symm, ?_, fun j h1 h2 => ?_⟩
    · rw [← h]; simpa using hp
    · have := hmin j h1 h2; simpa using this

theorem execute_command_cancelled :
    ∀ (lines : List String) (cancelled : Nat → Bool) (k d : Nat),
      (∀ j, j < d → cancelled (k + j) = false) → cancelled (k + d) = true →
      d < lines.length →
      ToolRunner.execute_command lines cancelled k = ((lines.take d).map pyStrip, true) := by
  intro lines
  induction lines with
  | nil => intro cancelled k d hmin hc hlen; simp at hlen
  | cons line rest ih =>
    intro cancelled k d hmin hc hlen
    cases d with
    | zero =>
      have hk : cancelled k = true := by simpa using hc
      simp [ToolRunner.execute_command, hk]
    | succ m =>
      have hk : cancelled k = false := by simpa using hmin 0 (by omega)
      have hrec := ih cancelled (k + 1) m
        (fun j hj => by
          have e : k + 1 + j = k + (j + 1) := by omega
          rw [e]; exact hmin (j + 1) (by omega))
        (by
          have e : k + 1 + m = k + (m + 1) := by omega
          rw [e]; exact hc)
        (by simpa using Nat.lt_of_succ_lt_succ hlen)
      simp [ToolRunner.execute_command, hk, hrec]

theorem delete_client_clients_eq (w : World) (client_id : Nat) :
    (delete_client w client_id).clients = w.clients.filter (fun c => !(c.id == client_id)) := rfl

theorem filter_id_ne_length (cid : Nat) :
    ∀ (l : List ClientRow), (l.Pairwise fun a b => a.id ≠ b.id) →
      l.length ≤ (l.filter fun c => !(c.id == cid)).length + 1 := by
  intro l
  induction l with
  | nil => simp
  | cons c rest ih =>
    intro hp
    rw [List.pairwise_cons] at hp
    obtain ⟨hhead, htail⟩ := hp
    by_cases hc : c.id = cid
    · have hrest : rest.filter (fun c => !(c.id == cid)) = rest := by
        rw [List.filter_eq_self]
        intro b hb
        have hne : c.id ≠ b.id := hhead b hb
        have hb2 : b.id ≠ cid := fun e => hne (by rw [hc, e])
        simp [hb2]
      have hpred : (!(c.id == cid)) = false := by simp [hc]
      simp [List.filter_cons, hpred, hrest]
    · have hih := ih htail
      have hpred : (!(c.id == cid)) = true := by simp [hc]
      simp only [List.filter_cons, hpred, if_true, List.length_cons]
      omega

/- ------------------------------------------------------------------ -/
/- Claim theorems                                                     -/
/- ------------------------------------------------------------------ -/

/-- C2: whenever `new_case_number` already exists in the cases table,
`CaseDatabaseManager.rename_case` raises ValueError with the message of
line 185 and returns with the whole state — in particular the old case's
row and the on-disk case directory — unchanged. -/
theorem C2_rename_to_existing_fails (w : World) (old_case_number new_case_number : String)
    (h : case_number_exists w.cases new_case_number = true) :
    rename_case w old_case_number new_case_number
      = (w, Except.error ("Case number " ++ new_case_number ++ " already exists.")) := by
  simp [rename_case, h]

/-- Witness for C2 at a concrete state holding case 2510-01. -/
theorem C2_rename_to_existing_fails_witness :
    case_number_exists C2W.cases "2510-01" = true ∧
    rename_case C2W "0001-07" "2510-01"
      = (C2W, Except.error ("Case number " ++ "2510-01" ++ " already exists.")) :=
  ⟨by decide, C2_rename_to_existing_fails C2W "0001-07" "2510-01" (by decide)⟩

/-- C7: the cancellation flag is checked once per output line; in every
execution where the flag is set (first observed at the check before line
`i0`), the process is terminated and exactly the lines before that check
are yielded — none after it. -/
theorem C7_cancel_terminates_and_stops_output (lines : List String) (cancelled : Nat → Bool)
    (i0 : Nat) (hmin : ∀ j, j < i0 → cancelled j = false) (hc : cancelled i0 = true)
    (hlen : i0 < lines.length) :
    ToolRunner.execute_command lines cancelled 0 = ((lines.take i0).map pyStrip, true) := by
  have := execute_command_cancelled lines cancelled 0 i0
    (fun j hj => by simpa using hmin j hj) (by simpa using hc) hlen
  simpa using this

/-- Witness for C7: three output lines, cancellation observed at the
second check; only the first line is yielded and the process is
terminated. -/
theorem C7_cancel_terminates_and_stops_output_witness :
    (∀ j, j < 1 → C7Flag j = false) ∧ C7Flag 1 = true ∧ 1 < (["a ", "b", "c"] : List String).length ∧
    ToolRunner.execute_command ["a ", "b", "c"] C7Flag 0
      = (((["a ", "b", "c"] : List String).take 1).map pyStrip, true) :=
  ⟨by decide, by decide, by decide,
    C7_cancel_terminates_and_stops_output ["a ", "b", "c"] C7Flag 1
      (by intro j hj; interval_cases j; decide) (by decide) (by decide)⟩

/-- C9: `CaseDatabaseManager.update_client` always fails with sqlite's
"no such column" OperationalError — its UPDATE statement sets a column
named `client` while the cases schema declares `client_id` — and the
state, in particular every row of the cases table, is returned
unchanged. -/
theorem C9_update_client_always_fails (w : World) (case_number new_client : String) :
    CaseDatabaseManager.update_client w case_number new_client
      = (w, Except.error "no such column: client") := by
  have h : ¬("client" ∈ casesTableColumns) := by decide
  simp [CaseDatabaseManager.update_client, h]

/-- C10: `ClientManager.delete_client` touches only the clients table:
the cases table and the filesystem are unchanged, every surviving client
row was already present, every client row with a different id survives
unchanged, every removed row had the given id, and under the primary-key
invariant at most one row is removed. -/
theorem C10_delete_client_frame (w : World) (client_id : Nat) :
    (delete_client w client_id).cases = w.cases ∧
    (delete_client w client_id).fs = w.fs ∧
    (∀ c ∈ w.clients, c.id ≠ client_id → c ∈ (delete_client w client_id).clients) ∧
    (∀ c ∈ (delete_client w client_id).clients, c ∈ w.clients) ∧
    (∀ c ∈ w.clients, c ∉ (delete_client w client_id).clients → c.id = client_id) ∧
    ((w.clients.Pairwise fun a b => a.id ≠ b.id) →
      w.clients.length ≤ (delete_client w client_id).clients.length + 1) := by
  refine ⟨rfl, rfl, ?_, ?_, ?_, ?_⟩
  · intro c hc hne
    rw [delete_client_clients_eq, List.mem_filter]
    exact ⟨hc, by simp [hne]⟩
  · intro c hc
    rw [delete_client_clients_eq, List.mem_filter] at hc
    exact hc.1
  · intro c hc hnot
    by_contra hne
    exact hnot (by rw [delete_client_clients_eq, List.mem_filter]; exact ⟨hc, by simp [hne]⟩)
  · intro hp
    rw [delete_client_clients_eq]
    exact filter_id_ne_length client_id w.clients hp

/-- C1: a successful `setup_case_folder` appends to the cases table a
row whose case number is of the form date-NN (NN zero-padded, 1–99), was
not previously present, and is lexicographically least among the
candidate numbers of the current month that are not in the table. -/
theorem C1_setup_allocates_lex_first_number (w w2 : World) (case_name : Option String)
    (case_type client date created_at today : String) (templates : List (String × String))
    (cn : String)
    (h : setup_case_folder w case_name case_type client date created_at today templates
          = (w2, SetupOutcome.created cn)) :
    (∃ i, 1 ≤ i ∧ i ≤ 99 ∧ cn = mkCaseNumber date i) ∧
    case_number_exists w.cases cn = false ∧
    w2.cases = w.cases ++
      [{ id := w.nextCaseId, case_number := cn, case_type := case_type,
         client_id := client, created_at := created_at }] ∧
    (∀ j, 1 ≤ j → j ≤ 99 → case_number_exists w.cases (mkCaseNumber date j) = false →
      strLe cn (mkCaseNumber date j) = true) := by
  rcases hg : generateCaseNumber w.cases date with _ | cn0
  · simp [setup_case_folder, hg] at h
  · simp only [setup_case_folder, hg] at h
    split at h
    · simp at h
    · obtain ⟨hw, hout⟩ := Prod.mk.injEq .. ▸ h
      injection hout with hcn
      subst hcn
      obtain ⟨i, h1, h99, hcn, hnotex, hmin⟩ := generateCaseNumber_spec w.cases date cn0 hg
      refine ⟨⟨i, h1, h99, hcn⟩, hnotex, ?_, ?_⟩
      · rw [← hw]; rfl
      · intro j hj1 hj99 hjfree
        have hij : i ≤ j := by
          by_contra hlt
          have := hmin j hj1 (by omega)
          rw [this] at hjfree
          cases hjfree
        rw [hcn]
        exact strLe_mkCaseNumber date (by omega) (by omega) hij

/-- Witness for C1 on an empty database: 2510-01 is allocated. -/
theorem C1_setup_allocates_lex_first_number_witness :
    setup_case_folder emptyWorld none "Person" "" "2510" "ca" "2025-10-12" []
      = (C1W, SetupOutcome.created "2510-01") ∧
    ((∃ i, 1 ≤ i ∧ i ≤ 99 ∧ "2510-01" = mkCaseNumber "2510" i) ∧
      case_number_exists emptyWorld.cases "2510-01" = false ∧
      C1W.cases = emptyWorld.cases ++
        [{ id := emptyWorld.nextCaseId, case_number := "2510-01", case_type := "Person",
           client_id := "", created_at := "ca" }] ∧
      (∀ j, 1 ≤ j → j ≤ 99 →
        case_number_exists emptyWorld.cases (mkCaseNumber "2510" j) = false →
        strLe "2510-01" (mkCaseNumber "2510" j) = true)) :=
  ⟨by decide,
    C1_setup_allocates_lex_first_number emptyWorld C1W none "Person" "" "2510" "ca"
      "2025-10-12" [] "2510-01" (by decide)⟩

/-- C8: when every case number date-01 … date-99 already exists in the
cases table, `setup_case_folder` hits the for-else branch and returns
with the database and the filesystem completely unchanged. -/
theorem C8_no_free_number_leaves_state_unchanged (w : World) (case_name : Option String)
    (case_type client date created_at today : String) (templates : List (String × String))
    (h : ∀ i, 1 ≤ i → i ≤ 99 → case_number_exists w.cases (mkCaseNumber date i) = true) :
    setup_case_folder w case_name case_type client date created_at today templates
      = (w, SetupOutcome.noNumbers) := by
  have hg : generateCaseNumber w.cases date = none := by
    unfold generateCaseNumber
    rw [Option.map_eq_none', List.find?_eq_none]
    intro x hx
    rw [List.mem_range'] at hx
    obtain ⟨i, hi, rfl⟩ := hx
    have := h (1 + 1 * i) (by omega) (by omega)
    simpa using this
  simp [setup_case_folder, hg]

set_option maxRecDepth 40000 in
/-- Witness for C8 at a state where all 99 numbers of month 2510 are
taken. -/
theorem C8_no_free_number_leaves_state_unchanged_witness :
    (∀ i, 1 ≤ i → i ≤ 99 → case_number_exists C8W.cases (mkCaseNumber "2510" i) = true) ∧
    setup_case_folder C8W none "Person" "" "2510" "ca" "2025-10-12" []
      = (C8W, SetupOutcome.noNumbers) :=
  have hball : ∀ x ∈ List.range' 1 99,
      case_number_exists C8W.cases (mkCaseNumber "2510" x) = true := by decide
  have h : ∀ i, 1 ≤ i → i ≤ 99 → case_number_exists C8W.cases (mkCaseNumber "2510" i) = true :=
    fun i h1 h2 =>
      hball i (by rw [List.mem_range']; exact ⟨i - 1, by omega, by omega⟩)
  ⟨h, C8_no_free_number_leaves_state_unchanged C8W none "Person" "" "2510" "ca" "2025-10-12" [] h⟩

/-- C3 counterexample: case 2510-01 was created under the custom folder
name `Foo`; `delete_case` removes its database row but leaves the whole
filesystem — including the case's directory tree rooted at `Foo` —
untouched, because it only looks for a directory named by the case
number. -/
theorem C3_counterexample_custom_folder_survives_delete :
    C3W.cases.map (fun r => r.case_number) = ["2510-01"] ∧
    C3W.fs.dirs.contains ["Foo"] = true ∧
    (delete_case C3W "2510-01").cases = [] ∧
    (delete_case C3W "2510-01").fs = C3W.fs ∧
    (delete_case C3W "2510-01").fs.dirs.contains ["Foo"] = true := by decide

/-- C3 (amended): `delete_case` always removes exactly the case's
database row, and removes the directory tree under the base path that is
named by the case number when such a directory exists; a directory
created under a custom case name (and any other path not under the
case-number directory) is left on disk. -/
theorem C3_delete_case_row_and_number_named_tree (w : World) (case_number : String) :
    (∀ r ∈ (delete_case w case_number).cases, r.case_number ≠ case_number) ∧
    (∀ r ∈ w.cases, r.case_number ≠ case_number → r ∈ (delete_case w case_number).cases) ∧
    (w.fs.dirs.contains [case_number] = true →
      (∀ d ∈ (delete_case w case_number).fs.dirs, [case_number].isPrefixOf d = false) ∧
      (∀ f ∈ (delete_case w case_number).fs.files, [case_number].isPrefixOf f.1 = false)) ∧
    (w.fs.dirs.contains [case_number] = false → (delete_case w case_number).fs = w.fs) ∧
    (∀ d ∈ w.fs.dirs, [case_number].isPrefixOf d = false →
      d ∈ (delete_case w case_number).fs.dirs) := by
  have hcs : (delete_case w case_number).cases
      = w.cases.filter (fun r => !(r.case_number == case_number)) := by
    simp only [delete_case]
    split <;> rfl
  refine ⟨?_, ?_, ?_, ?_, ?_⟩
  · intro r hr
    rw [hcs, List.mem_filter] at hr
    simpa using hr.2
  · intro r hr hne
    rw [hcs, List.mem_filter]
    exact ⟨hr, by simpa using hne⟩
  · intro hc
    have hmem : [case_number] ∈ w.fs.dirs := (contains_true_iff _ _).mp hc
    have hfs : (delete_case w case_number).fs
        = ⟨w.fs.dirs.filter (fun d => !([case_number].isPrefixOf d)),
           w.fs.files.filter (fun f => !([case_number].isPrefixOf f.1))⟩ := by
      simp [delete_case, hmem]
    constructor
    · intro d hd
      rw [hfs] at hd
      have := (List.mem_filter.mp hd).2
      simpa using this
    · intro f hf
      rw [hfs] at hf
      have := (List.mem_filter.mp hf).2
      simpa using this
  · intro hc
    have hmem : [case_number] ∉ w.fs.dirs := by
      intro m
      rw [(contains_true_iff w.fs.dirs [case_number]).mpr m] at hc
      cases hc
    simp [delete_case, hmem]
  · intro d hd hpre
    by_cases hmem : [case_number] ∈ w.fs.dirs
    · have hfs : (delete_case w case_number).fs
          = ⟨w.fs.dirs.filter (fun d => !([case_number].isPrefixOf d)),
             w.fs.files.filter (fun f => !([case_number].isPrefixOf f.1))⟩ := by
        simp [delete_case, hmem]
      rw [hfs]
      exact List.mem_filter.mpr ⟨hd, by simp [hpre]⟩
    · have hfs : (delete_case w case_number).fs = w.fs := by
        simp [delete_case, hmem]
      rw [hfs]
      exact hd

/-- C4 counterexample: the clients table contains a client whose name is
the empty string; `update_client` asked to rename client 2 to that
existing (empty) name does not raise — Python truthiness skips the
uniqueness check — and performs the update, leaving two clients with the
same name. -/
theorem C4_counterexample_empty_name_bypasses_check :
    client_exists C4W.clients "" = true ∧
    (ClientManager.update_client C4W 2 (some "") none none none).2 = Except.ok () ∧
    ((ClientManager.update_client C4W 2 (some "") none none none).1.clients.map
      (fun c => c.name)) = ["", ""] := by decide

/-- C4 (amended): client-name uniqueness is enforced on add for every
name, and on rename for every non-empty name: `add_client` with an
existing name raises ValueError and inserts nothing, and `update_client`
asked to set a client's name to an existing non-empty name raises
ValueError and updates nothing.  (Renaming to the empty string bypasses
the check, as the counterexample shows.) -/
theorem C4_name_unique_on_add_and_nonempty_rename (w : World)
    (name point_of_contact phone_number email : String) (client_id : Nat)
    (opoc ophone oemail : Option String)
    (hexists : client_exists w.clients name = true) :
    add_client w name point_of_contact phone_number email
      = (w, Except.error ("A client with the name " ++ name ++ " already exists.")) ∧
    (name ≠ "" →
      ClientManager.update_client w client_id (some name) opoc ophone oemail
        = (w, Except.error ("A client with the name " ++ name ++ " already exists."))) := by
  constructor
  · simp [add_client, hexists]
  · intro hne
    have hb : (!(name == "")) = true := by simp [hne]
    simp [ClientManager.update_client, hb, hexists]

/-- Witness for C4 at a concrete state holding a client named `A`. -/
theorem C4_name_unique_on_add_and_nonempty_rename_witness :
    client_exists C4W.clients "A" = true ∧
    (add_client C4W "A" "p" "5" "e"
        = (C4W, Except.error ("A client with the name " ++ "A" ++ " already exists.")) ∧
      ("A" ≠ "" →
        ClientManager.update_client C4W 1 (some "A") none none none
          = (C4W, Except.error ("A client with the name " ++ "A" ++ " already exists.")))) :=
  ⟨by decide,
    C4_name_unique_on_add_and_nonempty_rename C4W "A" "p" "5" "e" 1 none none none (by decide)⟩

theorem delete_case_cases_eq (w : World) (cn : String) :
    (delete_case w cn).cases = w.cases.filter (fun r => !(r.case_number == cn)) := by
  simp only [delete_case]
  split <;> rfl

theorem setup_case_folder_created (w w2 : World) (case_name : Option String)
    (case_type client date created_at today : String) (templates : List (String × String))
    (cn : String)
    (h : setup_case_folder w case_name case_type client date created_at today templates
          = (w2, SetupOutcome.created cn)) :
    generateCaseNumber w.cases date = some cn ∧
    w2.cases = w.cases ++ [⟨w.nextCaseId, cn, case_type, client, created_at⟩] ∧
    w2.fs.dirs = w.fs.dirs ++ caseDirs (case_name.getD cn) case_type ∧
    w2.fs.files = w.fs.files ++
      templates.map (templateOutput (case_name.getD cn) cn case_type today) ∧
    w2.clients = w.clients := by
  rcases hg : generateCaseNumber w.cases date with _ | cn0
  · simp [setup_case_folder, hg] at h
  · simp only [setup_case_folder, hg] at h
    split at h
    · simp at h
    · obtain ⟨hw, hout⟩ := Prod.mk.injEq .. ▸ h
      injection hout with hcn
      subst hcn
      subst hw
      exact ⟨rfl, rfl, rfl, rfl, rfl⟩

theorem setup_case_folder_cases_shape (w : World) (case_name : Option String)
    (case_type client date created_at today : String) (templates : List (String × String)) :
    (setup_case_folder w case_name case_type client date created_at today templates).1.cases
        = w.cases ∨
    ∃ cn, case_number_exists w.cases cn = false ∧
      (setup_case_folder w case_name case_type client date created_at today templates).1.cases
        = w.cases ++ [⟨w.nextCaseId, cn, case_type, client, created_at⟩] := by
  rcases hg : generateCaseNumber w.cases date with _ | cn
  · left
    simp [setup_case_folder, hg]
  · right
    refine ⟨cn, ?_, ?_⟩
    · obtain ⟨i, _, _, _, hne, _⟩ := generateCaseNumber_spec w.cases date cn hg
      exact hne
    · simp only [setup_case_folder, hg]
      split <;> rfl

theorem unique_append_fresh (cases : List CaseRow) (r : CaseRow)
    (hU : cases.Pairwise fun a b => a.case_number ≠ b.case_number)
    (hf : ∀ x ∈ cases, x.case_number ≠ r.case_number) :
    (cases ++ [r]).Pairwise fun a b => a.case_number ≠ b.case_number := by
  rw [List.pairwise_append]
  refine ⟨hU, by simp, ?_⟩
  intro a ha b hb
  simp only [List.mem_singleton] at hb
  subst hb
  exact hf a ha

theorem rename_case_cases_eq (w : World) (old_cn new_cn : String)
    (h : case_number_exists w.cases new_cn = false) :
    (rename_case w old_cn new_cn).1.cases
      = w.cases.map (fun r =>
          if r.case_number == old_cn then { r with case_number := new_cn } else r) := by
  simp only [rename_case, h]
  rw [if_neg (by simp)]
  split
  · split <;> rfl
  · rfl

theorem unique_map_rename (cases : List CaseRow) (old_cn new_cn : String)
    (hU : cases.Pairwise fun a b => a.case_number ≠ b.case_number)
    (hfresh : ∀ x ∈ cases, x.case_number ≠ new_cn) :
    (cases.map (fun r =>
        if r.case_number == old_cn then { r with case_number := new_cn } else r)).Pairwise
      (fun a b => a.case_number ≠ b.case_number) := by
  rw [List.pairwise_map]
  refine List.Pairwise.imp_of_mem ?_ hU
  intro a b ha hb hab
  by_cases h1 : a.case_number = old_cn <;> by_cases h2 : b.case_number = old_cn
  · exact absurd (h1.trans h2.symm) hab
  · simp only [h1, h2, beq_self_eq_true, if_true, beq_iff_eq, if_false]
    exact (hfresh b hb).symm
  · simp only [h1, h2, beq_self_eq_true, if_true, beq_iff_eq, if_false]
    exact hfresh a ha
  · simp only [h1, h2, beq_iff_eq, if_false]
    exact hab

theorem mem_dirs_pathExists (fs : Fs) (p : List String) (h : p ∈ fs.dirs) :
    pathExists fs p = true := by
  simp only [pathExists, Bool.or_eq_true]
  exact Or.inl ((contains_true_iff fs.dirs p).mpr h)

/-- C5 counterexample: case 2510-01 is created under the custom folder
name `2510-02`; a second case gets case number 2510-02 with custom
folder `B`.  The successful rename of case 2510-02 to 2510-03 moves the
directory named `2510-02` — which is the folder of case 2510-01 — so
afterwards case 2510-01 is still in the table while no folder named by
its case number (2510-01) or by its creation name (2510-02) exists. -/
theorem C5_counterexample_rename_moves_other_folder :
    ((setup_case_folder emptyWorld (some "2510-02") "Person" "" "2510" "ca" "2025-10-12" []).2
        = SetupOutcome.created "2510-01") ∧
    ((setup_case_folder C5W1 (some "B") "Person" "" "2510" "ca" "2025-10-12" []).2
        = SetupOutcome.created "2510-02") ∧
    (rename_case C5W2 "2510-02" "2510-03").2 = Except.ok 1 ∧
    C5W3.cases.map (fun r => r.case_number) = ["2510-01", "2510-03"] ∧
    C5W3.fs.dirs.contains ["2510-01"] = false ∧
    C5W3.fs.dirs.contains ["2510-02"] = false := by decide

/-- C5 (amended): every create, rename and delete — whatever its outcome
— preserves the uniqueness of case numbers; and when cases are created
without custom case names, each successful create, each successful
rename and every delete also keeps every case's on-disk folder named by
its case number.  (With custom case names the folder correspondence can
break, as the counterexample shows.) -/
theorem C5_operations_preserve_invariants (w : World)
    (hU : UniqueCaseNumbers w) (hM : FoldersMirror w)
    (case_name : Option String) (case_type client date created_at today : String)
    (templates : List (String × String)) (old_cn new_cn del_cn created_cn : String) (n : Nat) :
    UniqueCaseNumbers
      (setup_case_folder w case_name case_type client date created_at today templates).1 ∧
    UniqueCaseNumbers (rename_case w old_cn new_cn).1 ∧
    UniqueCaseNumbers (delete_case w del_cn) ∧
    ((setup_case_folder w none case_type client date created_at today templates).2
        = SetupOutcome.created created_cn →
      FoldersMirror (setup_case_folder w none case_type client date created_at today templates).1) ∧
    ((rename_case w old_cn new_cn).2 = Except.ok n →
      FoldersMirror (rename_case w old_cn new_cn).1) ∧
    FoldersMirror (delete_case w del_cn) := by
  refine ⟨?_, ?_, ?_, ?_, ?_, ?_⟩
  · -- create preserves uniqueness
    rcases setup_case_folder_cases_shape w case_name case_type client date created_at today
        templates with hsh | ⟨cn, hne, hsh⟩
    · unfold UniqueCaseNumbers
      rw [hsh]
      exact hU
    · unfold UniqueCaseNumbers
      rw [hsh]
      refine unique_append_fresh w.cases _ hU ?_
      intro x hx
      exact (case_number_exists_false_iff w.cases cn).mp hne x hx
  · -- rename preserves uniqueness
    by_cases hex : case_number_exists w.cases new_cn = true
    · have : (rename_case w old_cn new_cn).1 = w := by simp [rename_case, hex]
      rw [this]
      exact hU
    · have hex2 : case_number_exists w.cases new_cn = false := by
        simpa using hex
      unfold UniqueCaseNumbers
      rw [rename_case_cases_eq w old_cn new_cn hex2]
      exact unique_map_rename w.cases old_cn new_cn hU
        ((case_number_exists_false_iff w.cases new_cn).mp hex2)
  · -- delete preserves uniqueness
    unfold UniqueCaseNumbers
    rw [delete_case_cases_eq]
    exact hU.filter _
  · -- create (no custom name, success) preserves the folder mirror
    intro hp
    have hfull : setup_case_folder w none case_type client date created_at today templates
        = ((setup_case_folder w none case_type client date created_at today templates).1,
           SetupOutcome.created created_cn) := Prod.ext rfl hp
    obtain ⟨hg, hcases, hdirs, hfiles, hcl⟩ :=
      setup_case_folder_created w _ none case_type client date created_at today templates
        created_cn hfull
    intro r hr
    rw [hcases, List.mem_append] at hr
    rw [hdirs]
    rcases hr with hr | hr
    · exact List.mem_append_left _ (hM r hr)
    · simp only [List.mem_singleton] at hr
      subst hr
      refine List.mem_append_right _ ?_
      show [created_cn] ∈ caseDirs ((none : Option String).getD created_cn) case_type
      simp [caseDirs, Option.getD]
  · -- rename (success) preserves the folder mirror
    intro hOk
    by_cases hex : case_number_exists w.cases new_cn = true
    · simp [rename_case, hex] at hOk
    · have hex2 : case_number_exists w.cases new_cn = false := by simpa using hex
      have hcases := rename_case_cases_eq w old_cn new_cn hex2
      by_cases hpOld : pathExists w.fs [old_cn] = true
      · by_cases hpNew : pathExists w.fs [new_cn] = true
        · simp [rename_case, hex2, hpOld, hpNew] at hOk
        · have hpNew2 : pathExists w.fs [new_cn] = false := by simpa using hpNew
          have hdirs : (rename_case w old_cn new_cn).1.fs.dirs
              = w.fs.dirs.map (renameTop old_cn new_cn) := by
            simp [rename_case, hex2, hpOld, hpNew2]
          intro r2 hr2
          rw [hcases] at hr2
          obtain ⟨r, hr, rfl⟩ := List.mem_map.mp hr2
          rw [hdirs]
          by_cases hro : r.case_number = old_cn
          · have e : (if r.case_number == old_cn then { r with case_number := new_cn }
                else r).case_number = new_cn := by simp [hro]
            rw [e]
            refine List.mem_map.mpr ⟨[old_cn], ?_, by simp [renameTop]⟩
            have := hM r hr
            rwa [hro] at this
          · have e : (if r.case_number == old_cn then { r with case_number := new_cn }
                else r) = r := by simp [hro]
            rw [e]
            exact List.mem_map.mpr ⟨[r.case_number], hM r hr, by simp [renameTop, hro]⟩
      · have hpOld2 : pathExists w.fs [old_cn] = false := by simpa using hpOld
        have hfs : (rename_case w old_cn new_cn).1.fs = w.fs := by
          simp [rename_case, hex2, hpOld2]
        intro r2 hr2
        rw [hcases] at hr2
        obtain ⟨r, hr, rfl⟩ := List.mem_map.mp hr2
        have hro : r.case_number ≠ old_cn := by
          intro e
          have := hM r hr
          rw [e] at this
          exact absurd (mem_dirs_pathExists w.fs [old_cn] this) (by simpa using hpOld)
        have e : (if r.case_number == old_cn then { r with case_number := new_cn }
            else r) = r := by simp [hro]
        rw [e, hfs]
        exact hM r hr
  · -- delete preserves the folder mirror
    intro r hr
    rw [delete_case_cases_eq, List.mem_filter] at hr
    obtain ⟨hr, hne⟩ := hr
    have hne2 : r.case_number ≠ del_cn := by simpa using hne
    by_cases hmem : [del_cn] ∈ w.fs.dirs
    · have hfs : (delete_case w del_cn).fs
          = ⟨w.fs.dirs.filter (fun d => !([del_cn].isPrefixOf d)),
             w.fs.files.filter (fun f => !([del_cn].isPrefixOf f.1))⟩ := by
        simp [delete_case, hmem]
      rw [hfs]
      refine List.mem_filter.mpr ⟨hM r hr, ?_⟩
      simp [List.isPrefixOf, Ne.symm hne2]
    · have hfs : (delete_case w del_cn).fs = w.fs := by
        simp [delete_case, hmem]
      rw [hfs]
      exact hM r hr

/-- Witness for C5 at a concrete one-case state satisfying both
invariants. -/
theorem C5_operations_preserve_invariants_witness :
    UniqueCaseNumbers C5W ∧ FoldersMirror C5W ∧
    (UniqueCaseNumbers
        (setup_case_folder C5W none "Person" "" "2510" "cb" "2025-10-13" []).1 ∧
      UniqueCaseNumbers (rename_case C5W "2510-01" "2510-07").1 ∧
      UniqueCaseNumbers (delete_case C5W "2510-01") ∧
      ((setup_case_folder C5W none "Person" "" "2510" "cb" "2025-10-13" []).2
          = SetupOutcome.created "2510-02" →
        FoldersMirror (setup_case_folder C5W none "Person" "" "2510" "cb" "2025-10-13" []).1) ∧
      ((rename_case C5W "2510-01" "2510-07").2 = Except.ok 1 →
        FoldersMirror (rename_case C5W "2510-01" "2510-07").1) ∧
      FoldersMirror (delete_case C5W "2510-01")) :=
  have hU : UniqueCaseNumbers C5W := by unfold UniqueCaseNumbers; decide
  have hM : FoldersMirror C5W := by unfold FoldersMirror; decide
  ⟨hU, hM,
    C5_operations_preserve_invariants C5W hU hM none "Person" "" "2510" "cb" "2025-10-13" []
      "2510-01" "2510-07" "2510-01" "2510-02" 1⟩

/-- C6: a successful case creation produces exactly the case directory
with the fixed subfolders Associates, Audio, Documents, Other and
Social_Media (the latter with one subfolder per supported platform),
with Domains, Executives and Network added when and only when the case
type is Company, and populates the tree from the Markdown templates:
the Notes template gets the case number, case type and date substituted
into its placeholders and is written to `Notes.md` in the case folder,
the SOCMINT and Associates templates are copied to their mapped
subfolders, and any other template is copied to the case folder. -/
theorem C6_case_folder_layout (w w2 : World) (case_name : Option String)
    (case_type client date created_at today : String) (templates : List (String × String))
    (cn : String)
    (h : setup_case_folder w case_name case_type client date created_at today templates
          = (w2, SetupOutcome.created cn)) :
    w2.fs.dirs = w.fs.dirs ++
      ([case_name.getD cn] ::
        (((["Associates", "Audio", "Documents", "Other", "Social_Media"] ++
            (if case_type == "Company" then ["Domains", "Executives", "Network"] else [])).map
              (fun d => [case_name.getD cn, d])) ++
          (["Discord", "Facebook", "Instagram", "LinkedIn", "Reddit", "Signal", "Snapchat",
            "Telegram", "TikTok", "Twitter", "WhatsApp", "YouTube"]).map
              (fun p2 => [case_name.getD cn, "Social_Media", p2]))) ∧
    w2.fs.files = w.fs.files ++
      templates.map (fun t =>
        if stemBeforeDot t.1 == "Notes" then
          ([case_name.getD cn, "Notes.md"],
            pyReplace
              (pyReplace (pyReplace t.2 "**Case Number:**" ("**Case Number:** " ++ cn))
                "**Case Type:**" ("**Case Type:** " ++ case_type))
              "**Date:**" ("**Date:** " ++ today))
        else if stemBeforeDot t.1 == "SOCMINT" then
          ([case_name.getD cn, "Social_Media", t.1], t.2)
        else if stemBeforeDot t.1 == "Associates" then
          ([case_name.getD cn, "Associates", t.1], t.2)
        else ([case_name.getD cn, t.1], t.2)) := by
  obtain ⟨hg, hcases, hdirs, hfiles, hcl⟩ :=
    setup_case_folder_created w w2 case_name case_type client date created_at today
      templates cn h
  constructor
  · rw [hdirs]
    rfl
  · rw [hfiles]
    congr 1
    apply List.map_congr_left
    intro t ht
    by_cases h1 : stemBeforeDot t.1 = "Notes"
    · simp [templateOutput, template_to_folder, substituteNotes, h1]
    · by_cases h2 : stemBeforeDot t.1 = "SOCMINT"
      · simp [templateOutput, template_to_folder, h1, h2]
      · by_cases h3 : stemBeforeDot t.1 = "Associates"
        · simp [templateOutput, template_to_folder, h1, h2, h3]
        · simp [templateOutput, template_to_folder, h1, h2, h3]

/-- Witness for C6: a Company case created from four templates on an
empty state. -/
theorem C6_case_folder_layout_witness :
    setup_case_folder emptyWorld none "Company" "acme" "2510" "ca" "2025-10-12" C6T
      = (C6W, SetupOutcome.created "2510-01") ∧
    (C6W.fs.dirs = emptyWorld.fs.dirs ++
      (["2510-01"] ::
        (((["Associates", "Audio", "Documents", "Other", "Social_Media"] ++
            (if ("Company" : String) == "Company" then ["Domains", "Executives", "Network"]
             else [])).map (fun d => ["2510-01", d])) ++
          (["Discord", "Facebook", "Instagram", "LinkedIn", "Reddit", "Signal", "Snapchat",
            "Telegram", "TikTok", "Twitter", "WhatsApp", "YouTube"]).map
              (fun p2 => ["2510-01", "Social_Media", p2]))) ∧
     C6W.fs.files = emptyWorld.fs.files ++
      C6T.map (fun t =>
        if stemBeforeDot t.1 == "Notes" then
          (["2510-01", "Notes.md"],
            pyReplace
              (pyReplace (pyReplace t.2 "**Case Number:**" ("**Case Number:** " ++ "2510-01"))
                "**Case Type:**" ("**Case Type:** " ++ "Company"))
              "**Date:**" ("**Date:** " ++ "2025-10-12"))
        else if stemBeforeDot t.1 == "SOCMINT" then (["2510-01", "Social_Media", t.1], t.2)
        else if stemBeforeDot t.1 == "Associates" then (["2510-01", "Associates", t.1], t.2)
        else (["2510-01", t.1], t.2))) :=
  ⟨by decide,
    C6_case_folder_layout emptyWorld C6W none "Company" "acme" "2510" "ca" "2025-10-12" C6T
      "2510-01" (by decide)⟩

end Owlculus
